import Mathlib

/-!
# Verification of the pydaymet PET core (`pydaymet/core.py`)

A shallow embedding of the two FAO-56 potential-evapotranspiration engines
(`Daymet.pet_bycoords`, `Daymet.pet_bygrid`) and of the shared requirement
checker (`_check_requirements`).

Modelling conventions:

* Floating-point numbers are modelled by an arbitrary field `K`; the
  transcendental primitives used by the code (`np.exp`, `np.sin`, `np.cos`,
  `np.tan`, `np.arccos`, `np.sqrt`, float `**`, `np.pi`) are collected in a
  record `Prims K` so that every definition stays computable and can be
  instantiated at `K := ℚ` for concrete evaluation.
* A pandas `DataFrame` column is a series `Nat → K` (row index to value); a
  frame is an ordered association list of named columns plus the
  day-of-year sequence derived from its datetime index.
* An xarray variable is a cell function `Nat → Nat → Nat → Option K`
  (time, y, x), where `none` plays the role of `NaN`: every elementwise
  numpy operation maps a `NaN` operand to a `NaN` result, which is exactly
  the behaviour of the `Option`-lifted operations below.
* The time coordinate of a dataset is a list of `TimeVal`: either an
  original timestamp (with its day-of-year) or the numeric day-of-year
  value that `pet_bygrid` temporarily substitutes for it.
* The external elevation service (`py3dep`) is a parameter of type
  `Except ε _`: a `.error` value models the collaborator raising, and the
  engines' results live in `Except (PetErr ⊕ ε) _`, so an uncaught,
  unwrapped collaborator failure is visible as `.error (.inr e)`.
* Python exceptions are values of `PetErr`; an engine that raises returns
  `.error` together with the (possibly already mutated) state of the
  caller-supplied container, which models CPython's in-place mutation of
  the argument object.
-/

set_option autoImplicit false
set_option linter.unusedSectionVars false

/-- The transcendental primitives used by `pydaymet/core.py`, abstracted so
that the embedding is polymorphic over the number type. `rpow` models the
Python float power `x ** y`. -/
structure Prims (K : Type) where
  exp : K → K
  sin : K → K
  cos : K → K
  tan : K → K
  acos : K → K
  sqrt : K → K
  rpow : K → K → K
  pi : K

/-- The exceptions raised by the PET core (`pydaymet/exceptions.py` payloads
as used by `core.py`): `MissingItems` carries the list of missing variable
names, `InvalidInputType` carries the argument name and the expected type. -/
inductive PetErr where
  | missingItems (items : List String)
  | invalidInputType (arg : String) (valid : String)
deriving DecidableEq

/-- The `reqs` argument of `_check_requirements`: either an iterable of
names or a non-iterable value (Python `isinstance(reqs, Iterable)`). -/
inductive ReqArg where
  | it (reqs : List String)
  | notIt

/-- `_check_requirements(reqs, cols)` from `core.py` lines 415-430: raises
`InvalidInputType` when `reqs` is not iterable, collects
`[r for r in reqs if r not in cols]` and raises `MissingItems` on that list
when it is nonempty, otherwise returns `None`. -/
def _check_requirements (reqs : ReqArg) (cols : List String) : Except PetErr Unit :=
  match reqs with
  | .notIt => .error (.invalidInputType "reqs" "iterable")
  | .it rs =>
    let missing := rs.filter (fun r => decide (r ∉ cols))
    if missing = [] then .ok () else .error (.missingItems missing)

section OptionArith

variable {K : Type}

/-- Elementwise lift of a binary float operation to `NaN`-carrying values:
a `NaN` operand yields a `NaN` result, as in numpy. -/
def o2 (f : K → K → K) : Option K → Option K → Option K
  | some a, some b => some (f a b)
  | _, _ => none

/-- Elementwise lift of a unary float operation to `NaN`-carrying values. -/
def o1 (f : K → K) : Option K → Option K
  | some a => some (f a)
  | none => none

@[simp] theorem o2_some_some (f : K → K → K) (a b : K) :
    o2 f (some a) (some b) = some (f a b) := rfl

@[simp] theorem o2_none_left (f : K → K → K) (b : Option K) :
    o2 f none b = none := rfl

@[simp] theorem o2_none_right (f : K → K → K) (a : Option K) :
    o2 f a none = none := by cases a <;> rfl

@[simp] theorem o1_some (f : K → K) (a : K) : o1 f (some a) = some (f a) := rfl

@[simp] theorem o1_none (f : K → K) : o1 f none = none := rfl

variable [Field K]

/-- Lifted addition. -/
def oadd : Option K → Option K → Option K := o2 (· + ·)

/-- Lifted subtraction. -/
def osub : Option K → Option K → Option K := o2 (· - ·)

/-- Lifted multiplication. -/
def omul : Option K → Option K → Option K := o2 (· * ·)

/-- Lifted division. -/
def odiv : Option K → Option K → Option K := o2 (· / ·)

/-- Lifted natural-exponent power (`** 2`, `** 4` in the source). -/
def opow (a : Option K) (n : Nat) : Option K := o1 (· ^ n) a

/-- Lifted negation. -/
def oneg : Option K → Option K := o1 (fun a => -a)

end OptionArith

section Store

variable {α : Type}

/-- Key lookup in an ordered name-to-value store (pandas column access,
xarray variable access), with a default for absent keys. -/
def lookupD (l : List (String × α)) (c : String) (d : α) : α :=
  match l with
  | [] => d
  | p :: rest => if p.1 = c then p.2 else lookupD rest c d

/-- Keyed assignment: replace the value in place when the key exists
(keeping its position), append the new entry otherwise. This is the
semantics of `df[c] = v` / `ds[c] = v` and of a non-conflicting
`xr.merge`. -/
def upsert (l : List (String × α)) (c : String) (v : α) : List (String × α) :=
  match l with
  | [] => [(c, v)]
  | p :: rest => if p.1 = c then (c, v) :: rest else p :: upsert rest c v

/-- Removal of a set of keys (`df.drop(columns=...)`, `ds.drop_vars(...)`). -/
def dropKeys (l : List (String × α)) (cs : List String) : List (String × α) :=
  l.filter (fun p => decide (p.1 ∉ cs))

/-- The ordered key list of a store (`df.columns`, `list(ds.keys())`). -/
def keysOf (l : List (String × α)) : List String := l.map Prod.fst

@[simp] theorem lookupD_upsert_same (l : List (String × α)) (c : String) (v d : α) :
    lookupD (upsert l c v) c d = v := by
  induction l with
  | nil => simp [upsert, lookupD]
  | cons p rest ih =>
    by_cases h : p.1 = c <;> simp [upsert, lookupD, h, ih]

theorem lookupD_upsert_ne (l : List (String × α)) {c c' : String} (v d : α)
    (h : c' ≠ c) : lookupD (upsert l c v) c' d = lookupD l c' d := by
  induction l with
  | nil => simp [upsert, lookupD, Ne.symm h]
  | cons p rest ih =>
    by_cases hp : p.1 = c
    · subst hp
      simp [upsert, lookupD, Ne.symm h]
    · simp only [upsert, if_neg hp]
      by_cases hp' : p.1 = c' <;> simp [lookupD, hp', ih]

theorem lookupD_dropKeys_not_mem (l : List (String × α)) {c : String}
    (cs : List String) (d : α) (h : c ∉ cs) :
    lookupD (dropKeys l cs) c d = lookupD l c d := by
  induction l with
  | nil => rfl
  | cons p rest ih =>
    by_cases hp : p.1 = c
    · subst hp
      simp [dropKeys, List.filter_cons, lookupD, h, ih]
    · by_cases hm : p.1 ∈ cs <;>
        simp [dropKeys, List.filter_cons, lookupD, hp, hm] <;>
        simpa [dropKeys] using ih

@[simp] theorem mem_keysOf_upsert (l : List (String × α)) (c a : String) (v : α) :
    a ∈ keysOf (upsert l c v) ↔ a = c ∨ a ∈ keysOf l := by
  induction l with
  | nil => simp [upsert, keysOf]
  | cons p rest ih =>
    by_cases h : p.1 = c
    · subst h
      simp [upsert, keysOf]
      try tauto
    · simp [upsert, h, keysOf] at ih ⊢
      try tauto

@[simp] theorem mem_keysOf_dropKeys (l : List (String × α)) (cs : List String) (a : String) :
    a ∈ keysOf (dropKeys l cs) ↔ a ∈ keysOf l ∧ a ∉ cs := by
  simp [dropKeys, keysOf, List.mem_map, List.mem_filter]

end Store

section PointEngine

variable {K : Type} [Field K] {ε : Type}

/-- A pandas `DataFrame` for a single Daymet location: named columns
(series indexed by row number) plus the day-of-year sequence derived from
the frame's datetime index (`clm_df.index.dayofyear`). -/
structure Frame (K : Type) where
  cols : List (String × (Nat → K))
  doy : Nat → Nat

/-- Column access `df[c]` (only used on columns known to be present). -/
def Frame.get (df : Frame K) (c : String) : Nat → K :=
  lookupD df.cols c (fun _ => 0)

/-- Column assignment `df[c] = v` (in-place). -/
def Frame.set (df : Frame K) (c : String) (v : Nat → K) : Frame K :=
  { df with cols := upsert df.cols c v }

/-- `df.drop(columns=c)` (returns a new frame). -/
def Frame.drop (df : Frame K) (c : String) : Frame K :=
  { df with cols := dropKeys df.cols [c] }

/-- `df.columns`. -/
def Frame.names (df : Frame K) : List String := keysOf df.cols

@[simp] theorem Frame.get_set_same (df : Frame K) (c : String) (v : Nat → K) :
    (df.set c v).get c = v := by
  simp [Frame.get, Frame.set]

theorem Frame.get_set_ne (df : Frame K) {c c' : String} (v : Nat → K)
    (h : c' ≠ c) : (df.set c v).get c' = df.get c' := by
  simp [Frame.get, Frame.set, lookupD_upsert_ne _ _ _ h]

theorem Frame.get_drop_ne (df : Frame K) {c c' : String} (h : c' ≠ c) :
    (df.drop c).get c' = df.get c' := by
  have hx := lookupD_dropKeys_not_mem (c := c') df.cols [c] (fun _ => (0 : K)) (by simp [h])
  simp [Frame.get, Frame.drop, hx]

@[simp] theorem Frame.doy_set (df : Frame K) (c : String) (v : Nat → K) :
    (df.set c v).doy = df.doy := rfl

@[simp] theorem Frame.doy_drop (df : Frame K) (c : String) :
    (df.drop c).doy = df.doy := rfl

@[simp] theorem Frame.mem_names_set (df : Frame K) (c a : String) (v : Nat → K) :
    a ∈ (df.set c v).names ↔ a = c ∨ a ∈ df.names := by
  simp [Frame.names, Frame.set]

@[simp] theorem Frame.mem_names_drop (df : Frame K) (c a : String) :
    a ∈ (df.drop c).names ↔ a ∈ df.names ∧ a ≠ c := by
  simp [Frame.names, Frame.drop]

/-- The unit-labelled column names of `pet_bycoords` (core.py lines 236-247):
the `units` table maps each variable to its `(official, alternative)` unit
label, selected by `alt_unit`. -/
def tminCol (alt : Bool) : String := "tmin (" ++ (if alt then "deg c" else "degrees C") ++ ")"

/-- `tmax` column name, by unit-label switch. -/
def tmaxCol (alt : Bool) : String := "tmax (" ++ (if alt then "deg c" else "degrees C") ++ ")"

/-- `srad` column name, by unit-label switch. -/
def sradCol (alt : Bool) : String := "srad (" ++ (if alt then "W/m^2" else "W/m2") ++ ")"

/-- `vp (Pa)` column name (`va_pa`). -/
def vaPaCol : String := "vp (Pa)"

/-- `dayl (s)` column name. -/
def daylCol : String := "dayl (s)"

/-- `tmean (deg c)` intermediate column name. -/
def tmeanCol : String := "tmean (deg c)"

/-- `pet (mm/day)` output column name. -/
def petCol : String := "pet (mm/day)"

/-- The required column list `reqs` of `pet_bycoords` (line 249). -/
def bycoordsReqs (alt : Bool) : List String :=
  [tminCol alt, tmaxCol alt, vaPaCol, sradCol alt, daylCol]

/-- The net-longwave-radiation term of `pet_bycoords` (core.py lines
300-305), as a scalar function of the row values it reads: `tmax`, `tmin`,
the kPa-scaled vapor pressure, the surface radiation `r_surf` and the
clear-sky radiation `rad_s`. -/
def rad_nl_bycoords (P : Prims K) (tmax tmin vp rsurf rads : K) : K :=
  4.903e-9
    * (((tmax + 273.16) ^ 4 + (tmin + 273.16) ^ 4) * 0.5)
    * (0.34 - 0.14 * P.sqrt vp)
    * ((1.35 * rsurf / rads) - 0.35)

/-- `Daymet.pet_bycoords` (core.py lines 205-314), with the external
`py3dep.elevation_bycoords` collaborator supplied as `lookup` (its `.error`
case models the collaborator raising, with an arbitrary payload type `ε`).
The returned pair is (final state of the caller-supplied frame, returned
value or raised exception); the caller's frame is mutated in place, and the
returned frame is `clm_df.drop(columns=tmean_c)`. -/
def pet_bycoordsFull (P : Prims K) (lookup : Except ε K) (coords : K × K)
    (alt : Bool) (df : Frame K) : Frame K × Except (PetErr ⊕ ε) (Frame K) :=
  match _check_requirements (ReqArg.it (bycoordsReqs alt)) (Frame.names df) with
  | .error e => (df, .error (.inl e))
  | .ok _ =>
    let df1 := df.set tmeanCol (fun i => 0.5 * (df.get (tmaxCol alt) i + df.get (tminCol alt) i))
    let delta_v := fun i =>
      4098
        * (0.6108 * P.exp (17.27 * df1.get tmeanCol i / (df1.get tmeanCol i + 237.3)))
        / ((df1.get tmeanCol i + 237.3) ^ 2)
    match lookup with
    | .error e => (df1, .error (.inr e))
    | .ok elevation =>
      let pa := 101.3 * P.rpow ((293.0 - 0.0065 * elevation) / 293.0) 5.26
      let gamma := pa * 0.665e-3
      let rho_s : K := 0.0
      let df2 := df1.set vaPaCol (fun i => df1.get vaPaCol i * 1e-3)
      let e_max := fun i =>
        0.6108 * P.exp (17.27 * df2.get (tmaxCol alt) i / (df2.get (tmaxCol alt) i + 237.3))
      let e_min := fun i =>
        0.6108 * P.exp (17.27 * df2.get (tminCol alt) i / (df2.get (tminCol alt) i + 237.3))
      let e_s := fun i => (e_max i + e_min i) * 0.5
      let e_def := fun i => e_s i - df2.get vaPaCol i
      let u_2m : K := 2.0
      let jday := df2.doy
      let r_surf := fun i => df2.get (sradCol alt) i * df2.get daylCol i * 1e-6
      let alb : K := 0.23
      let jp := fun i => 2.0 * P.pi * (jday i : K) / 365.0
      let d_r := fun i => 1.0 + 0.033 * P.cos (jp i)
      let delta_r := fun i => 0.409 * P.sin (jp i - 1.39)
      let phi := coords.2 * P.pi / 180.0
      let w_s := fun i => P.acos (-P.tan phi * P.tan (delta_r i))
      let r_aero := fun i =>
        24.0 * 60.0 / P.pi * 0.082 * d_r i
          * (w_s i * P.sin phi * P.sin (delta_r i)
             + P.cos phi * P.cos (delta_r i) * P.sin (w_s i))
      let rad_s := fun i => (0.75 + 2e-5 * elevation) * r_aero i
      let rad_ns := fun i => (1.0 - alb) * r_surf i
      let rad_nl := fun i =>
        rad_nl_bycoords P (df2.get (tmaxCol alt) i) (df2.get (tminCol alt) i)
          (df2.get vaPaCol i) (r_surf i) (rad_s i)
      let rad_n := fun i => rad_ns i - rad_nl i
      let df3 := df2.set petCol (fun i =>
        (0.408 * delta_v i * (rad_n i - rho_s)
           + gamma * 900.0 / (df2.get tmeanCol i + 273.0) * u_2m * e_def i)
          / (delta_v i + gamma * (1 + 0.34 * u_2m)))
      let df4 := df3.set vaPaCol (fun i => df3.get vaPaCol i * 1.0e3)
      (df4, .ok (df4.drop tmeanCol))

end PointEngine

section GridEngine

variable {K : Type} [Field K] {ε : Type}

/-- One entry of an xarray time coordinate: either an original timestamp
(an abstract identifier together with its day-of-year), or the numeric
day-of-year value that `pet_bygrid` temporarily writes over the axis
(core.py line 373). -/
inductive TimeVal (K : Type) where
  | stamp (id : Nat) (doy : Nat)
  | num (x : K)
deriving DecidableEq

/-- `pd.to_datetime(values).dayofyear.astype(dtype)` applied to one axis
entry. -/
def TimeVal.toDoyNum : TimeVal K → TimeVal K
  | .stamp _ d => .num (d : K)
  | .num x => .num x

/-- An xarray `Dataset`: named variables, each a cell function of
(time, y, x) with `none` for `NaN`, plus the time coordinate. -/
structure Dataset (K : Type) where
  vars : List (String × (Nat → Nat → Nat → Option K))
  time : List (TimeVal K)

/-- Variable access `ds[c]` (only used on variables known to be present). -/
def Dataset.getVar (ds : Dataset K) (c : String) : Nat → Nat → Nat → Option K :=
  lookupD ds.vars c (fun _ _ _ => none)

/-- Variable assignment `ds[c] = v` (replacing in place, or — for the
elevation field — the effect of a non-conflicting `xr.merge`). -/
def Dataset.setVar (ds : Dataset K) (c : String) (v : Nat → Nat → Nat → Option K) : Dataset K :=
  { ds with vars := upsert ds.vars c v }

/-- `ds.drop_vars(cs)`. -/
def Dataset.dropVars (ds : Dataset K) (cs : List String) : Dataset K :=
  { ds with vars := dropKeys ds.vars cs }

/-- Overwriting the time coordinate (`ds["time"] = ...`). -/
def Dataset.setTime (ds : Dataset K) (tl : List (TimeVal K)) : Dataset K :=
  { ds with time := tl }

/-- `list(ds.keys())`. -/
def Dataset.names (ds : Dataset K) : List String := keysOf ds.vars

/-- The numeric value of time-axis entry `t`, as read by the arithmetic on
`clm_ds["time"]` in lines 373-378 (a timestamp has no numeric value). -/
def Dataset.timeNum (ds : Dataset K) (t : Nat) : Option K :=
  match ds.time[t]? with
  | some (.num x) => some x
  | _ => none

@[simp] theorem Dataset.getVar_setVar_same (ds : Dataset K) (c : String)
    (v : Nat → Nat → Nat → Option K) : (ds.setVar c v).getVar c = v := by
  simp [Dataset.getVar, Dataset.setVar]

theorem Dataset.getVar_setVar_ne (ds : Dataset K) {c c' : String}
    (v : Nat → Nat → Nat → Option K) (h : c' ≠ c) :
    (ds.setVar c v).getVar c' = ds.getVar c' := by
  simp [Dataset.getVar, Dataset.setVar, lookupD_upsert_ne _ _ _ h]

theorem Dataset.getVar_dropVars_not_mem (ds : Dataset K) {c : String}
    (cs : List String) (h : c ∉ cs) : (ds.dropVars cs).getVar c = ds.getVar c := by
  have hx := lookupD_dropKeys_not_mem (c := c) ds.vars cs
    (fun _ _ _ => (none : Option K)) h
  simp [Dataset.getVar, Dataset.dropVars, hx]

@[simp] theorem Dataset.getVar_setTime (ds : Dataset K) (tl : List (TimeVal K)) (c : String) :
    (ds.setTime tl).getVar c = ds.getVar c := rfl

@[simp] theorem Dataset.time_setVar (ds : Dataset K) (c : String)
    (v : Nat → Nat → Nat → Option K) : (ds.setVar c v).time = ds.time := rfl

@[simp] theorem Dataset.time_setTime (ds : Dataset K) (tl : List (TimeVal K)) :
    (ds.setTime tl).time = tl := rfl

@[simp] theorem Dataset.time_dropVars (ds : Dataset K) (cs : List String) :
    (ds.dropVars cs).time = ds.time := rfl

@[simp] theorem Dataset.names_setTime (ds : Dataset K) (tl : List (TimeVal K)) :
    (ds.setTime tl).names = ds.names := rfl

@[simp] theorem Dataset.mem_names_setVar (ds : Dataset K) (c a : String)
    (v : Nat → Nat → Nat → Option K) :
    a ∈ (ds.setVar c v).names ↔ a = c ∨ a ∈ ds.names := by
  simp [Dataset.names, Dataset.setVar]

@[simp] theorem Dataset.mem_names_dropVars (ds : Dataset K) (cs : List String) (a : String) :
    a ∈ (ds.dropVars cs).names ↔ a ∈ ds.names ∧ a ∉ cs := by
  simp [Dataset.names, Dataset.dropVars]

/-- The required variable list `reqs` of `pet_bygrid` (core.py line 337). -/
def bygridReqs : List String := ["tmin", "tmax", "lat", "lon", "vp", "srad", "dayl"]

/-- The net-longwave-radiation term of `pet_bygrid` (core.py lines 393-398),
elementwise on `NaN`-carrying cells. -/
def rad_nl_bygrid (P : Prims K) (tmax tmin vp rsurf rads : Option K) : Option K :=
  omul
    (omul
      (omul (some 4.903e-9)
        (omul (oadd (opow (oadd tmax (some 273.16)) 4) (opow (oadd tmin (some 273.16)) 4))
          (some 0.5)))
      (osub (some 0.34) (omul (some 0.14) (o1 P.sqrt vp))))
    (osub (odiv (omul (some 1.35) rsurf) rads) (some 0.35))

/-- `Daymet.pet_bygrid` (core.py lines 316-412), with the external
`py3dep.elevation_bygrid` collaborator supplied as `lookup` (an `.error`
models the collaborator raising; an `.ok` carries the (y, x) elevation
field). The returned pair is (final state of the caller-supplied dataset,
returned value or raised exception): the caller's object receives the
`tmean` and `delta_r` variables in place, while every mutation from the
`xr.merge` on (line 353) acts on a new dataset object, which is the one
returned. -/
def pet_bygridFull (P : Prims K) (lookup : Except ε (Nat → Nat → Option K))
    (ds : Dataset K) : Dataset K × Except (PetErr ⊕ ε) (Dataset K) :=
  let keys := ds.names
  match _check_requirements (ReqArg.it bygridReqs) keys with
  | .error e => (ds, .error (.inl e))
  | .ok _ =>
    let dates := ds.time
    let ds1 := ds.setVar "tmean" (fun t y x =>
      omul (some 0.5) (oadd (ds.getVar "tmax" t y x) (ds.getVar "tmin" t y x)))
    let ds2 := ds1.setVar "delta_r" (fun t y x =>
      odiv
        (omul (some 4098)
          (omul (some 0.6108)
            (o1 P.exp (odiv (omul (some 17.27) (ds1.getVar "tmean" t y x))
              (oadd (ds1.getVar "tmean" t y x) (some 237.3))))))
        (opow (oadd (ds1.getVar "tmean" t y x) (some 237.3)) 2))
    match lookup with
    | .error e => (ds2, .error (.inr e))
    | .ok elevG =>
      let ds3 := ds2.setVar "elevation" (fun _ y x => elevG y x)
      let ds4 := ds3.setVar "elevation" (fun t y x =>
        match ds3.getVar (keys.headD "") 0 y x with
        | none => none
        | some _ => ds3.getVar "elevation" t y x)
      let ds5 := ds4.setVar "gamma" (fun t y x =>
        omul
          (omul (some 101.3)
            (o1 (fun z => P.rpow z 5.26)
              (odiv (osub (some 293.0) (omul (some 0.0065) (ds4.getVar "elevation" t y x)))
                (some 293.0))))
          (some 0.665e-3))
      let rho_s : K := 0.0
      let ds6 := ds5.setVar "vp" (fun t y x => omul (ds5.getVar "vp" t y x) (some 1e-3))
      let e_max := fun t y x =>
        omul (some 0.6108)
          (o1 P.exp (odiv (omul (some 17.27) (ds6.getVar "tmax" t y x))
            (oadd (ds6.getVar "tmax" t y x) (some 237.3))))
      let e_min := fun t y x =>
        omul (some 0.6108)
          (o1 P.exp (odiv (omul (some 17.27) (ds6.getVar "tmin" t y x))
            (oadd (ds6.getVar "tmin" t y x) (some 237.3))))
      let e_s := fun t y x => omul (oadd (e_max t y x) (e_min t y x)) (some 0.5)
      let ds7 := ds6.setVar "e_def" (fun t y x => osub (e_s t y x) (ds6.getVar "vp" t y x))
      let u_2m : K := 2.0
      let lat := fun y x => ds7.getVar "lat" 0 y x
      let ds8 := ds7.setTime (ds7.time.map TimeVal.toDoyNum)
      let r_surf := fun t y x =>
        omul (omul (ds8.getVar "srad" t y x) (ds8.getVar "dayl" t y x)) (some 1e-6)
      let alb : K := 0.23
      let jp := fun t =>
        odiv (omul (omul (some 2.0) (some P.pi)) (ds8.timeNum t)) (some 365.0)
      let d_r := fun t => oadd (some 1.0) (omul (some 0.033) (o1 P.cos (jp t)))
      let decl_r := fun t => omul (some 0.409) (o1 P.sin (osub (jp t) (some 1.39)))
      let phi := fun y x => odiv (omul (lat y x) (some P.pi)) (some 180.0)
      let w_s := fun t y x =>
        o1 P.acos (omul (oneg (o1 P.tan (phi y x))) (o1 P.tan (decl_r t)))
      let r_aero := fun t y x =>
        omul
          (omul (omul (odiv (omul (some 24.0) (some 60.0)) (some P.pi)) (some 0.082)) (d_r t))
          (oadd
            (omul (omul (w_s t y x) (o1 P.sin (phi y x))) (o1 P.sin (decl_r t)))
            (omul (omul (o1 P.cos (phi y x)) (o1 P.cos (decl_r t))) (o1 P.sin (w_s t y x))))
      let rad_s := fun t y x =>
        omul (oadd (some 0.75) (omul (some 2e-5) (ds8.getVar "elevation" t y x))) (r_aero t y x)
      let rad_ns := fun t y x => omul (some (1.0 - alb)) (r_surf t y x)
      let rad_nl := fun t y x =>
        rad_nl_bygrid P (ds8.getVar "tmax" t y x) (ds8.getVar "tmin" t y x)
          (ds8.getVar "vp" t y x) (r_surf t y x) (rad_s t y x)
      let ds9 := ds8.setVar "rad_n" (fun t y x => osub (rad_ns t y x) (rad_nl t y x))
      let ds10 := ds9.setVar "pet" (fun t y x =>
        odiv
          (oadd
            (omul (omul (some 0.408) (ds9.getVar "delta_r" t y x))
              (osub (ds9.getVar "rad_n" t y x) (some rho_s)))
            (omul
              (omul
                (odiv (omul (ds9.getVar "gamma" t y x) (some 900.0))
                  (oadd (ds9.getVar "tmean" t y x) (some 273.0)))
                (some u_2m))
              (ds9.getVar "e_def" t y x)))
          (oadd (ds9.getVar "delta_r" t y x)
            (omul (ds9.getVar "gamma" t y x) (some (1 + 0.34 * u_2m)))))
      let ds11 := ds10.setTime dates
      let ds12 := ds11.setVar "vp" (fun t y x => omul (ds11.getVar "vp" t y x) (some 1.0e3))
      let ds13 := ds12.dropVars ["delta_r", "gamma", "e_def", "rad_n", "tmean"]
      (ds2, .ok ds13)

end GridEngine

section SpecDefs

variable {K : Type} [Field K]

/-- The scalar value computed for one row by `pet_bycoords`, written with
exactly the source's expressions (core.py lines 254-311): inputs are the
row's `tmax`, `tmin`, vapor pressure in Pa, `srad`, `dayl`, the row's
day-of-year, the latitude `coords[1]` and the looked-up elevation. -/
def bycoordsCell (P : Prims K) (lat elev tmax tmin vpPa srad dayl : K) (doy : Nat) : K :=
  let tmean := 0.5 * (tmax + tmin)
  let delta_v :=
    4098 * (0.6108 * P.exp (17.27 * tmean / (tmean + 237.3))) / ((tmean + 237.3) ^ 2)
  let pa := 101.3 * P.rpow ((293.0 - 0.0065 * elev) / 293.0) 5.26
  let gamma := pa * 0.665e-3
  let rho_s : K := 0.0
  let vp := vpPa * 1e-3
  let e_max := 0.6108 * P.exp (17.27 * tmax / (tmax + 237.3))
  let e_min := 0.6108 * P.exp (17.27 * tmin / (tmin + 237.3))
  let e_s := (e_max + e_min) * 0.5
  let e_def := e_s - vp
  let u_2m : K := 2.0
  let r_surf := srad * dayl * 1e-6
  let alb : K := 0.23
  let jp := 2.0 * P.pi * (doy : K) / 365.0
  let d_r := 1.0 + 0.033 * P.cos jp
  let delta_r := 0.409 * P.sin (jp - 1.39)
  let phi := lat * P.pi / 180.0
  let w_s := P.acos (-P.tan phi * P.tan delta_r)
  let r_aero :=
    24.0 * 60.0 / P.pi * 0.082 * d_r
      * (w_s * P.sin phi * P.sin delta_r + P.cos phi * P.cos delta_r * P.sin w_s)
  let rad_s := (0.75 + 2e-5 * elev) * r_aero
  let rad_ns := (1.0 - alb) * r_surf
  let rad_nl := rad_nl_bycoords P tmax tmin vp r_surf rad_s
  let rad_n := rad_ns - rad_nl
  (0.408 * delta_v * (rad_n - rho_s) + gamma * 900.0 / (tmean + 273.0) * u_2m * e_def)
    / (delta_v + gamma * (1 + 0.34 * u_2m))

/-- The FAO-56 pipeline result exactly as the specification words it
(spec §4.2 steps 1-14, claim C1): `Tmean = (tmax+tmin)/2`,
`Δ = 4098·(0.6108·exp(17.27·Tmean/(Tmean+237.3)))/(Tmean+237.3)²`,
`γ = 0.665e-3·101.3·((293−0.0065·elevation)/293)^5.26`, wind speed fixed
at `2.0`, soil heat flux fixed at `0`, net radiation from the
solar-geometry and Stefan-Boltzmann terms of steps 9-12, and
`PET = [0.408·Δ·(netRadiation − 0) + γ·900/(Tmean+273)·2.0·vpd] /
[Δ + γ·(1+0.34·2.0)]`. -/
def specPET (P : Prims K) (lat elev tmax tmin vpPa srad dayl : K) (doy : Nat) : K :=
  let tmean := (tmax + tmin) / 2
  let delta :=
    4098 * (0.6108 * P.exp (17.27 * tmean / (tmean + 237.3))) / ((tmean + 237.3) ^ 2)
  let gamma := 0.665e-3 * (101.3 * P.rpow ((293.0 - 0.0065 * elev) / 293.0) 5.26)
  let vp := vpPa * 1e-3
  let e_max := 0.6108 * P.exp (17.27 * tmax / (tmax + 237.3))
  let e_min := 0.6108 * P.exp (17.27 * tmin / (tmin + 237.3))
  let e_s := (e_max + e_min) / 2
  let vpd := e_s - vp
  let r_surf := srad * dayl * 1e-6
  let jp := 2.0 * P.pi * (doy : K) / 365.0
  let d_r := 1.0 + 0.033 * P.cos jp
  let decl := 0.409 * P.sin (jp - 1.39)
  let phi := lat * P.pi / 180.0
  let w_s := P.acos (-P.tan phi * P.tan decl)
  let r_aero :=
    24.0 * 60.0 / P.pi * 0.082 * d_r
      * (w_s * P.sin phi * P.sin decl + P.cos phi * P.cos decl * P.sin w_s)
  let rad_s := (0.75 + 2e-5 * elev) * r_aero
  let rad_ns := (1.0 - 0.23) * r_surf
  let rad_nl := 4.903e-9 * (((tmax + 273.16) ^ 4 + (tmin + 273.16) ^ 4) / 2)
    * (0.34 - 0.14 * P.sqrt vp) * (1.35 * (r_surf / rad_s) - 0.35)
  let rad_n := rad_ns - rad_nl
  (0.408 * delta * (rad_n - 0) + gamma * 900.0 / (tmean + 273.0) * 2.0 * vpd)
    / (delta + gamma * (1 + 0.34 * 2.0))

/-- The net-longwave term exactly as claim C9 words it, as a function of
the raw (unclamped) surface/clear-sky ratio. -/
def specRadNl (P : Prims K) (tmax tmin vpkpa ratio : K) : K :=
  4.903e-9 * (((tmax + 273.16) ^ 4 + (tmin + 273.16) ^ 4) / 2)
    * (0.34 - 0.14 * P.sqrt vpkpa) * (1.35 * ratio - 0.35)

/-- Unpack a non-raising call result (used to state concrete facts about a
returned container). -/
def okOr {E A : Type} (r : Except E A) (d : A) : A :=
  match r with
  | .ok a => a
  | .error _ => d

end SpecDefs

/-- Concrete primitives over `ℚ` used to evaluate the engines on sample
inputs (the abstract transcendental functions are irrelevant to the
structural facts being instantiated). -/
def dummyP : Prims ℚ :=
  { exp := fun _ => 1, sin := fun _ => 1, cos := fun _ => 1, tan := fun _ => 1,
    acos := fun _ => 1, sqrt := fun _ => 1, rpow := fun _ _ => 1, pi := 3 }

/-- A sample point table carrying the five required columns (official unit
labels) with constant values, over a 1-row daily index with day-of-year 5. -/
def df0 : Frame ℚ :=
  { cols :=
      [("tmin (degrees C)", fun _ => 10), ("tmax (degrees C)", fun _ => 30),
       ("vp (Pa)", fun _ => 1500), ("srad (W/m2)", fun _ => 250),
       ("dayl (s)", fun _ => 50000)],
    doy := fun _ => 5 }

/-- A sample gridded dataset carrying the seven required variables with
constant defined cells, one timestamp with day-of-year 5. -/
def ds0 : Dataset ℚ :=
  { vars :=
      [("tmin", fun _ _ _ => some 10), ("tmax", fun _ _ _ => some 30),
       ("lat", fun _ _ _ => some 40), ("lon", fun _ _ _ => some 0),
       ("vp", fun _ _ _ => some 1500), ("srad", fun _ _ _ => some 250),
       ("dayl", fun _ _ _ => some 50000)],
    time := [TimeVal.stamp 0 5] }

/-- A variant of `ds0` whose reference (first) variable is undefined at the
first time slice for every cell: input data with no coverage. -/
def ds0mask : Dataset ℚ :=
  { vars :=
      [("tmin", fun _ _ _ => none), ("tmax", fun _ _ _ => some 30),
       ("lat", fun _ _ _ => some 40), ("lon", fun _ _ _ => some 0),
       ("vp", fun _ _ _ => some 1500), ("srad", fun _ _ _ => some 250),
       ("dayl", fun _ _ _ => some 50000)],
    time := [TimeVal.stamp 0 5] }

/-- A sample grid elevation field (all cells 200 m). -/
def elevG0 : Nat → Nat → Option ℚ := fun _ _ => some 200

/-! ## Helper lemmas -/

theorem vaPa_ne_tmean : vaPaCol ≠ tmeanCol := by decide

theorem vaPa_ne_pet : vaPaCol ≠ petCol := by decide

theorem pet_ne_vaPa : petCol ≠ vaPaCol := by decide

theorem pet_ne_tmean : petCol ≠ tmeanCol := by decide

theorem tmean_ne_vaPa : tmeanCol ≠ vaPaCol := by decide

theorem tmax_ne_tmean (alt : Bool) : tmaxCol alt ≠ tmeanCol := by cases alt <;> decide

theorem tmin_ne_tmean (alt : Bool) : tminCol alt ≠ tmeanCol := by cases alt <;> decide

theorem srad_ne_tmean (alt : Bool) : sradCol alt ≠ tmeanCol := by cases alt <;> decide

theorem dayl_ne_tmean : daylCol ≠ tmeanCol := by decide

theorem tmax_ne_vaPa (alt : Bool) : tmaxCol alt ≠ vaPaCol := by cases alt <;> decide

theorem tmin_ne_vaPa (alt : Bool) : tminCol alt ≠ vaPaCol := by cases alt <;> decide

theorem srad_ne_vaPa (alt : Bool) : sradCol alt ≠ vaPaCol := by cases alt <;> decide

theorem dayl_ne_vaPa : daylCol ≠ vaPaCol := by decide

theorem check_ok_iff (reqs cols : List String) :
    _check_requirements (ReqArg.it reqs) cols = .ok () ↔ ∀ r ∈ reqs, r ∈ cols := by
  simp only [_check_requirements]
  by_cases h : reqs.filter (fun r => decide (r ∉ cols)) = []
  · rw [if_pos h]
    refine iff_of_true rfl ?_
    intro r hr
    by_contra hc
    have hm : r ∈ reqs.filter (fun r => decide (r ∉ cols)) := by
      simp [List.mem_filter, hr, hc]
    rw [h] at hm
    exact absurd hm (List.not_mem_nil r)
  · rw [if_neg h]
    refine iff_of_false (by simp) ?_
    intro hall
    apply h
    rw [List.eq_nil_iff_forall_not_mem]
    intro r hrf
    have hrm := List.mem_filter.mp hrf
    simp only [decide_eq_true_eq] at hrm
    exact hrm.2 (hall r hrm.1)

/-! ## Claims -/

/-- C4: the Requirement Checker returns nothing exactly when every required
name is present; otherwise it raises the missing-items error carrying
exactly the required names not present (no more, no fewer); a non-iterable
required-names argument raises an invalid-argument error distinct from the
missing-items error. -/
theorem c4_check_requirements_spec (reqs cols : List String) :
    (_check_requirements (ReqArg.it reqs) cols = .ok () ↔ ∀ r ∈ reqs, r ∈ cols)
    ∧ ((∃ r ∈ reqs, r ∉ cols) →
        _check_requirements (ReqArg.it reqs) cols
          = .error (.missingItems (reqs.filter (fun r => decide (r ∉ cols)))))
    ∧ (∀ m, m ∈ reqs.filter (fun r => decide (r ∉ cols)) ↔ m ∈ reqs ∧ m ∉ cols)
    ∧ _check_requirements ReqArg.notIt cols = .error (.invalidInputType "reqs" "iterable")
    ∧ (∀ items a b, PetErr.missingItems items ≠ PetErr.invalidInputType a b) := by
  refine ⟨check_ok_iff reqs cols, ?_, ?_, rfl, fun items a b h => PetErr.noConfusion h⟩
  · rintro ⟨r, hr, hc⟩
    have hne : reqs.filter (fun r => decide (r ∉ cols)) ≠ [] := by
      intro h0
      rw [List.eq_nil_iff_forall_not_mem] at h0
      exact h0 r (by simp [List.mem_filter, hr, hc])
    simp only [_check_requirements]
    rw [if_neg hne]
  · intro m
    simp [List.mem_filter]

/-- C4 witness: a table offering only `tmax` fails the check on
`[tmin, tmax]` with exactly `[tmin]` as missing items, the non-iterable
error is the distinct invalid-argument error, and the complete case
passes. -/
theorem c4_check_requirements_spec_witness :
    _check_requirements (ReqArg.it ["tmin", "tmax"]) ["tmax"]
        = .error (.missingItems ["tmin"])
      ∧ _check_requirements (ReqArg.it ["tmin"]) ["tmin", "tmax"] = .ok () := by
  constructor
  · have h := (c4_check_requirements_spec ["tmin", "tmax"] ["tmax"]).2.1
      ⟨"tmin", by simp, by simp⟩
    simpa using h
  · exact (c4_check_requirements_spec ["tmin"] ["tmin", "tmax"]).1.mpr (by simp)

/-- Value of the appended `pet (mm/day)` column: the success path of
`pet_bycoords` writes, at each row, exactly the scalar `bycoordsCell`
of the row's inputs. -/
theorem pet_bycoords_cell {K : Type} [Field K] {ε : Type} (P : Prims K) (elev : K)
    (coords : K × K) (alt : Bool) (df : Frame K)
    (hreq : _check_requirements (ReqArg.it (bycoordsReqs alt)) (Frame.names df) = .ok ()) :
    ∃ r, (pet_bycoordsFull (ε := ε) P (Except.ok elev) coords alt df).2 = Except.ok r
      ∧ ∀ i, r.get petCol i
          = bycoordsCell P coords.2 elev (df.get (tmaxCol alt) i) (df.get (tminCol alt) i)
              (df.get vaPaCol i) (df.get (sradCol alt) i) (df.get daylCol i) (df.doy i) := by
  unfold pet_bycoordsFull
  rw [hreq]
  refine ⟨_, rfl, fun i => ?_⟩
  rw [Frame.get_drop_ne _ pet_ne_tmean]
  rw [Frame.get_set_ne _ _ pet_ne_vaPa]
  rw [Frame.get_set_same]
  simp only [Frame.get_set_ne _ _ vaPa_ne_tmean, Frame.get_set_ne _ _ (tmax_ne_tmean alt),
    Frame.get_set_ne _ _ (tmin_ne_tmean alt), Frame.get_set_ne _ _ (srad_ne_tmean alt),
    Frame.get_set_ne _ _ dayl_ne_tmean, Frame.get_set_ne _ _ (tmax_ne_vaPa alt),
    Frame.get_set_ne _ _ (tmin_ne_vaPa alt), Frame.get_set_ne _ _ (srad_ne_vaPa alt),
    Frame.get_set_ne _ _ dayl_ne_vaPa, Frame.get_set_ne _ _ tmean_ne_vaPa,
    Frame.get_set_same, Frame.doy_set, bycoordsCell, rad_nl_bycoords]

set_option maxHeartbeats 1000000 in
/-- The source's row computation agrees with the specification's FAO-56
pipeline formula (they differ only by commuted/normalized arithmetic). -/
theorem bycoordsCell_eq_specPET {K : Type} [Field K] [CharZero K] (P : Prims K)
    (lat elev tmax tmin vpPa srad dayl : K) (doy : Nat) :
    bycoordsCell P lat elev tmax tmin vpPa srad dayl doy
      = specPET P lat elev tmax tmin vpPa srad dayl doy := by
  have h05 : (0.5 : K) = 1 / 2 := by norm_num
  have h00 : (0.0 : K) = 0 := by norm_num
  have h : (0.5 : K) * (tmax + tmin) = (tmax + tmin) / 2 := by rw [h05]; ring
  simp only [bycoordsCell, specPET, rad_nl_bycoords]
  rw [h]
  simp only [h05, h00]
  ring

/-- C1: for every point table satisfying the requirement check, the Point
PET Engine appends a `pet (mm/day)` column whose value at every row equals
the FAO-56 pipeline result (`specPET`) of that row's inputs, with wind
speed fixed at 2.0 and soil heat flux fixed at 0. -/
theorem c1_pet_bycoords_fao {K : Type} [Field K] [CharZero K] {ε : Type} (P : Prims K)
    (coords : K × K) (alt : Bool) (elev : K) (df : Frame K)
    (hreq : _check_requirements (ReqArg.it (bycoordsReqs alt)) (Frame.names df) = .ok ()) :
    ∃ r, (pet_bycoordsFull (ε := ε) P (Except.ok elev) coords alt df).2 = Except.ok r
      ∧ ∀ i, r.get petCol i
          = specPET P coords.2 elev (df.get (tmaxCol alt) i) (df.get (tminCol alt) i)
              (df.get vaPaCol i) (df.get (sradCol alt) i) (df.get daylCol i) (df.doy i) := by
  obtain ⟨r, hr, hv⟩ := pet_bycoords_cell (ε := ε) P elev coords alt df hreq
  exact ⟨r, hr, fun i => (hv i).trans (bycoordsCell_eq_specPET P _ _ _ _ _ _ _ _)⟩

/-- C1 witness: the sample table `df0` passes the check and its appended
column equals the specification formula at every row. -/
theorem c1_pet_bycoords_fao_witness :
    ∃ r, (pet_bycoordsFull (ε := Unit) dummyP (Except.ok 200) ((0 : ℚ), 40) false df0).2
        = Except.ok r
      ∧ ∀ i, r.get petCol i
          = specPET dummyP ((0 : ℚ), 40).2 200 (df0.get (tmaxCol false) i)
              (df0.get (tminCol false) i) (df0.get vaPaCol i) (df0.get (sradCol false) i)
              (df0.get daylCol i) (df0.doy i) :=
  c1_pet_bycoords_fao dummyP ((0 : ℚ), 40) false 200 df0 rfl

/-- C8: when the elevation lookup collaborator raises, both engines
propagate that error to the caller unchanged (`Sum.inr e` carries the very
payload, not caught or wrapped), no result container is returned, and the
caller-supplied container has already been mutated: the point engine has
added the mean-temperature column, the grid engine the mean-temperature
and slope variables. -/
theorem c8_lookup_error_propagates {K : Type} [Field K] {ε : Type} (P : Prims K) (e : ε)
    (coords : K × K) (alt : Bool) (df : Frame K) (ds : Dataset K)
    (hreqP : _check_requirements (ReqArg.it (bycoordsReqs alt)) (Frame.names df) = .ok ())
    (hreqG : _check_requirements (ReqArg.it bygridReqs) (Dataset.names ds) = .ok ()) :
    pet_bycoordsFull P (Except.error e) coords alt df
        = (df.set tmeanCol
            (fun i => 0.5 * (df.get (tmaxCol alt) i + df.get (tminCol alt) i)),
           Except.error (Sum.inr e))
      ∧ ∃ m, pet_bygridFull P (Except.error e) ds = (m, Except.error (Sum.inr e))
          ∧ "tmean" ∈ m.names ∧ "delta_r" ∈ m.names
          ∧ ∀ c, c ∈ m.names ↔ c = "delta_r" ∨ c = "tmean" ∨ c ∈ ds.names := by
  constructor
  · unfold pet_bycoordsFull
    rw [hreqP]
  · simp only [pet_bygridFull]
    rw [hreqG]
    refine ⟨_, rfl, ?_, ?_, fun c => ?_⟩ <;> simp

/-- C8 witness: on the sample containers, with the collaborator failing
with payload `7`, both engines return that error unchanged. -/
theorem c8_lookup_error_propagates_witness :
    pet_bycoordsFull dummyP (Except.error (7 : Nat)) ((0 : ℚ), 40) false df0
        = (df0.set tmeanCol
            (fun i => 0.5 * (df0.get (tmaxCol false) i + df0.get (tminCol false) i)),
           Except.error (Sum.inr 7))
      ∧ ∃ m, pet_bygridFull dummyP (Except.error (7 : Nat)) ds0 = (m, Except.error (Sum.inr 7))
          ∧ "tmean" ∈ m.names ∧ "delta_r" ∈ m.names
          ∧ ∀ c, c ∈ m.names ↔ c = "delta_r" ∨ c = "tmean" ∨ c ∈ ds0.names :=
  c8_lookup_error_propagates dummyP 7 ((0 : ℚ), 40) false df0 ds0 rfl rfl

/-- C6: for every grid dataset satisfying the requirement check, the output
time axis is identical to the input's time axis (the original timestamps,
not the temporarily substituted day-of-year numbers). -/
theorem c6_grid_time_axis_restored {K : Type} [Field K] {ε : Type} (P : Prims K)
    (elevG : Nat → Nat → Option K) (ds : Dataset K)
    (hreq : _check_requirements (ReqArg.it bygridReqs) (Dataset.names ds) = .ok ()) :
    ∃ r, (pet_bygridFull (ε := ε) P (Except.ok elevG) ds).2 = Except.ok r
      ∧ r.time = ds.time := by
  simp only [pet_bygridFull]
  rw [hreq]
  exact ⟨_, rfl, by simp⟩

/-- C6 witness: the sample grid's output carries the original timestamp
axis. -/
theorem c6_grid_time_axis_restored_witness :
    ∃ r, (pet_bygridFull (ε := Unit) dummyP (Except.ok elevG0) ds0).2 = Except.ok r
      ∧ r.time = ds0.time :=
  c6_grid_time_axis_restored dummyP elevG0 ds0 rfl

/-- C10: on success the point engine returns a container distinct from the
caller's: the returned table has the mean-temperature column removed (and
the PET column present), while the caller's table object — mutated in
place — still carries both the mean-temperature and the PET columns. -/
theorem c10_bycoords_caller_mutated {K : Type} [Field K] {ε : Type} (P : Prims K) (elev : K)
    (coords : K × K) (alt : Bool) (df : Frame K)
    (hreq : _check_requirements (ReqArg.it (bycoordsReqs alt)) (Frame.names df) = .ok ()) :
    ∃ r, (pet_bycoordsFull (ε := ε) P (Except.ok elev) coords alt df).2 = Except.ok r
      ∧ tmeanCol ∉ r.names ∧ petCol ∈ r.names
      ∧ tmeanCol ∈ (pet_bycoordsFull (ε := ε) P (Except.ok elev) coords alt df).1.names
      ∧ petCol ∈ (pet_bycoordsFull (ε := ε) P (Except.ok elev) coords alt df).1.names
      ∧ (pet_bycoordsFull (ε := ε) P (Except.ok elev) coords alt df).1 ≠ r := by
  unfold pet_bycoordsFull
  rw [hreq]
  refine ⟨_, rfl, ?_, ?_, ?_, ?_, ?_⟩
  · simp
  · simp [pet_ne_tmean]
  · simp
  · simp
  · intro hEq
    have h2 := congrArg (fun fr => tmeanCol ∈ Frame.names fr) hEq
    simp at h2

/-- C10 witness: the sample table exhibits the mutated caller object and
the distinct returned table. -/
theorem c10_bycoords_caller_mutated_witness :
    ∃ r, (pet_bycoordsFull (ε := Unit) dummyP (Except.ok 200) ((0 : ℚ), 40) false df0).2
        = Except.ok r
      ∧ tmeanCol ∉ r.names ∧ petCol ∈ r.names
      ∧ tmeanCol ∈ (pet_bycoordsFull (ε := Unit) dummyP (Except.ok 200) ((0 : ℚ), 40) false df0).1.names
      ∧ petCol ∈ (pet_bycoordsFull (ε := Unit) dummyP (Except.ok 200) ((0 : ℚ), 40) false df0).1.names
      ∧ (pet_bycoordsFull (ε := Unit) dummyP (Except.ok 200) ((0 : ℚ), 40) false df0).1 ≠ r :=
  c10_bycoords_caller_mutated dummyP 200 ((0 : ℚ), 40) false df0 rfl

/-- C3: in both engines the vapor-pressure variable of the returned
container carries the input's numeric values at every row/cell: the
internal ×1e-3 rescale is exactly undone by the ×1e3 restore. -/
theorem c3_vp_roundtrip {K : Type} [Field K] [CharZero K] {ε : Type} (P : Prims K)
    (elev : K) (elevG : Nat → Nat → Option K) (coords : K × K) (alt : Bool)
    (df : Frame K) (ds : Dataset K)
    (hreqP : _check_requirements (ReqArg.it (bycoordsReqs alt)) (Frame.names df) = .ok ())
    (hreqG : _check_requirements (ReqArg.it bygridReqs) (Dataset.names ds) = .ok ()) :
    (∃ r, (pet_bycoordsFull (ε := ε) P (Except.ok elev) coords alt df).2 = Except.ok r
      ∧ ∀ i, r.get vaPaCol i = df.get vaPaCol i)
    ∧ (∃ r, (pet_bygridFull (ε := ε) P (Except.ok elevG) ds).2 = Except.ok r
      ∧ ∀ t y x, r.getVar "vp" t y x = ds.getVar "vp" t y x) := by
  constructor
  · unfold pet_bycoordsFull
    rw [hreqP]
    refine ⟨_, rfl, fun i => ?_⟩
    simp only [Frame.get_drop_ne _ vaPa_ne_tmean, Frame.get_set_same,
      Frame.get_set_ne _ _ vaPa_ne_pet, Frame.get_set_ne _ _ vaPa_ne_tmean]
    rw [mul_assoc]
    norm_num
  · simp only [pet_bygridFull]
    rw [hreqG]
    refine ⟨_, rfl, fun t y x => ?_⟩
    rw [Dataset.getVar_dropVars_not_mem _ _ (by decide)]
    simp only [Dataset.getVar_setVar_same, Dataset.getVar_setTime,
      Dataset.getVar_setVar_ne _ _ (by decide : ("vp" : String) ≠ "pet"),
      Dataset.getVar_setVar_ne _ _ (by decide : ("vp" : String) ≠ "rad_n"),
      Dataset.getVar_setVar_ne _ _ (by decide : ("vp" : String) ≠ "e_def"),
      Dataset.getVar_setVar_ne _ _ (by decide : ("vp" : String) ≠ "gamma"),
      Dataset.getVar_setVar_ne _ _ (by decide : ("vp" : String) ≠ "elevation"),
      Dataset.getVar_setVar_ne _ _ (by decide : ("vp" : String) ≠ "delta_r"),
      Dataset.getVar_setVar_ne _ _ (by decide : ("vp" : String) ≠ "tmean")]
    cases h : ds.getVar "vp" t y x with
    | none => simp [omul, h]
    | some v =>
      simp [omul, h]
      rw [mul_assoc]
      norm_num

/-- C3 witness: on the sample containers the output vapor pressure equals
the input's 1500 Pa everywhere. -/
theorem c3_vp_roundtrip_witness :
    (∃ r, (pet_bycoordsFull (ε := Unit) dummyP (Except.ok 200) ((0 : ℚ), 40) false df0).2
        = Except.ok r ∧ ∀ i, r.get vaPaCol i = df0.get vaPaCol i)
    ∧ (∃ r, (pet_bygridFull (ε := Unit) dummyP (Except.ok elevG0) ds0).2 = Except.ok r
      ∧ ∀ t y x, r.getVar "vp" t y x = ds0.getVar "vp" t y x) :=
  c3_vp_roundtrip dummyP 200 elevG0 ((0 : ℚ), 40) false df0 ds0 rfl rfl

/-- C9: in both engines the net-longwave term uses the raw, unclamped
surface/clear-sky radiation ratio: for every input (no bound on the ratio)
the term equals the claim's Stefan-Boltzmann formula applied to the raw
ratio. -/
theorem c9_rad_nl_unclamped {K : Type} [Field K] [CharZero K] (P : Prims K)
    (tmax tmin vp rsurf rads : K) :
    rad_nl_bycoords P tmax tmin vp rsurf rads
        = specRadNl P tmax tmin vp (rsurf / rads)
      ∧ rad_nl_bygrid P (some tmax) (some tmin) (some vp) (some rsurf) (some rads)
        = some (specRadNl P tmax tmin vp (rsurf / rads)) := by
  have h05 : (0.5 : K) = 1 / 2 := by norm_num
  constructor
  · simp only [rad_nl_bycoords, specRadNl]
    rw [h05]
    ring
  · simp only [rad_nl_bygrid, oadd, osub, omul, odiv, opow, o2_some_some, o1_some]
    refine congrArg some ?_
    simp only [specRadNl]
    rw [h05]
    ring

/-- If the requirement check passed, the head of the dataset's variable
list is one of its variables. -/
theorem headD_mem_of_check {K : Type} (ds : Dataset K)
    (hreq : _check_requirements (ReqArg.it bygridReqs) (Dataset.names ds) = .ok ()) :
    ds.names.headD "" ∈ ds.names := by
  have h : ("tmin" : String) ∈ ds.names :=
    (check_ok_iff _ _).mp hreq "tmin" (by simp [bygridReqs])
  cases hn : ds.names with
  | nil => rw [hn] at h; exact absurd h (List.not_mem_nil _)
  | cons a l => simp

/-- C7: for every grid dataset satisfying the requirement check (with the
reference variable being an actual climate variable, not one of the names
the engine itself writes), every (y, x) cell where the reference variable's
first time slice is undefined yields an undefined PET value at every time
step. -/
theorem c7_masked_cells_undefined_pet {K : Type} [Field K] {ε : Type} (P : Prims K)
    (elevG : Nat → Nat → Option K) (ds : Dataset K) (y x : Nat)
    (hreq : _check_requirements (ReqArg.it bygridReqs) (Dataset.names ds) = .ok ())
    (helev : "elevation" ∉ ds.names)
    (h1 : ds.names.headD "" ≠ "tmean")
    (h2 : ds.names.headD "" ≠ "delta_r")
    (h0 : ds.getVar (ds.names.headD "") 0 y x = none) :
    ∃ r, (pet_bygridFull (ε := ε) P (Except.ok elevG) ds).2 = Except.ok r
      ∧ ∀ t, r.getVar "pet" t y x = none := by
  have hke : ds.names.headD "" ≠ "elevation" :=
    fun h => helev (h ▸ headD_mem_of_check ds hreq)
  simp only [pet_bygridFull]
  rw [hreq]
  refine ⟨_, rfl, fun t => ?_⟩
  rw [Dataset.getVar_dropVars_not_mem _ _ (by decide)]
  simp only [Dataset.getVar_setVar_same, Dataset.getVar_setTime,
    Dataset.getVar_setVar_ne _ _ (by decide : ("pet" : String) ≠ "vp"),
    Dataset.getVar_setVar_ne _ _ (by decide : ("gamma" : String) ≠ "rad_n"),
    Dataset.getVar_setVar_ne _ _ (by decide : ("gamma" : String) ≠ "e_def"),
    Dataset.getVar_setVar_ne _ _ (by decide : ("gamma" : String) ≠ "vp"),
    Dataset.getVar_setVar_ne _ _ hke,
    Dataset.getVar_setVar_ne _ _ h2,
    Dataset.getVar_setVar_ne _ _ h1,
    h0]
  simp [oadd, osub, omul, odiv, opow, oneg, o1]

/-- C7 witness: on the sample grid whose first variable is undefined at
the first time slice of cell (0, 0), the PET field is undefined there at
every time step. -/
theorem c7_masked_cells_undefined_pet_witness :
    ∃ r, (pet_bygridFull (ε := Unit) dummyP (Except.ok elevG0) ds0mask).2 = Except.ok r
      ∧ ∀ t, r.getVar "pet" t 0 0 = none :=
  c7_masked_cells_undefined_pet dummyP elevG0 ds0mask 0 0 rfl (by decide) (by decide)
    (by decide) rfl

/-- C2 (amended): for every grid dataset satisfying the requirement check,
the five intermediate variables written during computation (`tmean`,
`delta_r`, `gamma`, `e_def`, `rad_n`) are absent from the returned dataset,
and the returned variables are exactly the input's variables plus `pet`
plus the merged `elevation` field, minus those five intermediates. -/
theorem c2_grid_output_variables {K : Type} [Field K] {ε : Type} (P : Prims K)
    (elevG : Nat → Nat → Option K) (ds : Dataset K)
    (hreq : _check_requirements (ReqArg.it bygridReqs) (Dataset.names ds) = .ok ()) :
    ∃ r, (pet_bygridFull (ε := ε) P (Except.ok elevG) ds).2 = Except.ok r
      ∧ (∀ v, v ∈ (["delta_r", "gamma", "e_def", "rad_n", "tmean"] : List String)
          → v ∉ r.names)
      ∧ ∀ v, v ∈ r.names ↔
          (v ∈ ds.names ∨ v = "pet" ∨ v = "elevation")
          ∧ v ∉ (["delta_r", "gamma", "e_def", "rad_n", "tmean"] : List String) := by
  have hvp : ("vp" : String) ∈ ds.names :=
    (check_ok_iff _ _).mp hreq "vp" (by simp [bygridReqs])
  simp only [pet_bygridFull]
  rw [hreq]
  refine ⟨_, rfl, ?_, fun v => ?_⟩
  · intro v hv
    simp only [Dataset.mem_names_dropVars]
    rintro ⟨_, hnot⟩
    exact hnot hv
  · simp only [Dataset.mem_names_dropVars, Dataset.mem_names_setVar, Dataset.names_setTime]
    constructor
    · rintro ⟨hin, hnot⟩
      refine ⟨?_, hnot⟩
      simp only [List.mem_cons, List.not_mem_nil, or_false] at hnot
      push_neg at hnot
      rcases hin with h | h | h | h | h | h | h | h | h | h | h
      · exact Or.inl (h ▸ hvp)
      · exact Or.inr (Or.inl h)
      · exact absurd h hnot.2.2.2.1
      · exact absurd h hnot.2.2.1
      · exact Or.inl (h ▸ hvp)
      · exact absurd h hnot.2.1
      · exact Or.inr (Or.inr h)
      · exact Or.inr (Or.inr h)
      · exact absurd h hnot.1
      · exact absurd h hnot.2.2.2.2
      · exact Or.inl h
    · rintro ⟨hin, hnot⟩
      refine ⟨?_, hnot⟩
      rcases hin with h | h | h
      · tauto
      · tauto
      · tauto

/-- C2 counterexample: on the sample grid, the claim "the output contains
exactly the input's variables plus the single new variable pet" is false:
the merged `elevation` variable is also present in the output. -/
theorem c2_grid_output_variables_counterexample :
    ¬ (∀ v, v ∈ (okOr (pet_bygridFull (ε := Unit) dummyP (Except.ok elevG0) ds0).2 ds0).names
        ↔ v ∈ ds0.names ∨ v = "pet") := by
  intro h
  have h1 := (h "elevation").mp (by decide)
  exact absurd h1 (by decide)

/-- C2 witness: the amended statement instantiated on the sample grid. -/
theorem c2_grid_output_variables_witness :
    ∃ r, (pet_bygridFull (ε := Unit) dummyP (Except.ok elevG0) ds0).2 = Except.ok r
      ∧ (∀ v, v ∈ (["delta_r", "gamma", "e_def", "rad_n", "tmean"] : List String)
          → v ∉ r.names)
      ∧ ∀ v, v ∈ r.names ↔
          (v ∈ ds0.names ∨ v = "pet" ∨ v = "elevation")
          ∧ v ∉ (["delta_r", "gamma", "e_def", "rad_n", "tmean"] : List String) :=
  c2_grid_output_variables dummyP elevG0 ds0 rfl

/-- On fully defined cells the grid net-longwave term is the `some` of the
point engine's scalar term. -/
theorem rad_nl_bygrid_some {K : Type} [Field K] (P : Prims K) (a b c d e : K) :
    rad_nl_bygrid P (some a) (some b) (some c) (some d) (some e)
      = some (rad_nl_bycoords P a b c d e) := by
  simp [rad_nl_bygrid, rad_nl_bycoords, oadd, osub, omul, odiv, opow]

set_option maxHeartbeats 2000000 in
/-- C5: on a single-cell grid whose variable values, latitude, day-of-year
and looked-up elevation agree with an equivalent point table, the Grid PET
Engine's cell value is exactly the `some` of the Point PET Engine's row
value at each corresponding time step. -/
theorem c5_point_grid_agree {K : Type} [Field K] {ε : Type} (P : Prims K)
    (coords : K × K) (alt : Bool) (elev : K) (elevG : Nat → Nat → Option K)
    (df : Frame K) (ds : Dataset K) (t n : Nat) (w : K)
    (hreqP : _check_requirements (ReqArg.it (bycoordsReqs alt)) (Frame.names df) = .ok ())
    (hreqG : _check_requirements (ReqArg.it bygridReqs) (Dataset.names ds) = .ok ())
    (helev : "elevation" ∉ ds.names)
    (h1 : ds.names.headD "" ≠ "tmean")
    (h2 : ds.names.headD "" ≠ "delta_r")
    (hmask : ds.getVar (ds.names.headD "") 0 0 0 = some w)
    (helevG : elevG 0 0 = some elev)
    (htmax : ds.getVar "tmax" t 0 0 = some (df.get (tmaxCol alt) t))
    (htmin : ds.getVar "tmin" t 0 0 = some (df.get (tminCol alt) t))
    (hvp : ds.getVar "vp" t 0 0 = some (df.get vaPaCol t))
    (hsrad : ds.getVar "srad" t 0 0 = some (df.get (sradCol alt) t))
    (hdayl : ds.getVar "dayl" t 0 0 = some (df.get daylCol t))
    (hlat : ds.getVar "lat" 0 0 0 = some coords.2)
    (htime : ds.time[t]? = some (TimeVal.stamp n (df.doy t))) :
    ∃ rg rp, (pet_bygridFull (ε := ε) P (Except.ok elevG) ds).2 = Except.ok rg
      ∧ (pet_bycoordsFull (ε := ε) P (Except.ok elev) coords alt df).2 = Except.ok rp
      ∧ rg.getVar "pet" t 0 0 = some (rp.get petCol t) := by
  have hke : ds.names.headD "" ≠ "elevation" :=
    fun h => helev (h ▸ headD_mem_of_check ds hreqG)
  obtain ⟨rp, hrp, hvpet⟩ := pet_bycoords_cell (ε := ε) P elev coords alt df hreqP
  simp only [pet_bygridFull]
  rw [hreqG]
  refine ⟨_, rp, rfl, hrp, ?_⟩
  rw [hvpet t]
  rw [Dataset.getVar_dropVars_not_mem _ _ (by decide)]
  simp only [Dataset.getVar_setVar_same, Dataset.getVar_setTime,
    Dataset.getVar_setVar_ne _ _ (by decide : ("pet" : String) ≠ "vp"),
    Dataset.getVar_setVar_ne _ _ (by decide : ("delta_r" : String) ≠ "rad_n"),
    Dataset.getVar_setVar_ne _ _ (by decide : ("gamma" : String) ≠ "rad_n"),
    Dataset.getVar_setVar_ne _ _ (by decide : ("tmean" : String) ≠ "rad_n"),
    Dataset.getVar_setVar_ne _ _ (by decide : ("e_def" : String) ≠ "rad_n"),
    Dataset.getVar_setVar_ne _ _ (by decide : ("tmax" : String) ≠ "rad_n"),
    Dataset.getVar_setVar_ne _ _ (by decide : ("tmin" : String) ≠ "rad_n"),
    Dataset.getVar_setVar_ne _ _ (by decide : ("srad" : String) ≠ "rad_n"),
    Dataset.getVar_setVar_ne _ _ (by decide : ("dayl" : String) ≠ "rad_n"),
    Dataset.getVar_setVar_ne _ _ (by decide : ("elevation" : String) ≠ "rad_n"),
    Dataset.getVar_setVar_ne _ _ (by decide : ("delta_r" : String) ≠ "e_def"),
    Dataset.getVar_setVar_ne _ _ (by decide : ("gamma" : String) ≠ "e_def"),
    Dataset.getVar_setVar_ne _ _ (by decide : ("tmean" : String) ≠ "e_def"),
    Dataset.getVar_setVar_ne _ _ (by decide : ("tmax" : String) ≠ "e_def"),
    Dataset.getVar_setVar_ne _ _ (by decide : ("tmin" : String) ≠ "e_def"),
    Dataset.getVar_setVar_ne _ _ (by decide : ("srad" : String) ≠ "e_def"),
    Dataset.getVar_setVar_ne _ _ (by decide : ("dayl" : String) ≠ "e_def"),
    Dataset.getVar_setVar_ne _ _ (by decide : ("vp" : String) ≠ "e_def"),
    Dataset.getVar_setVar_ne _ _ (by decide : ("elevation" : String) ≠ "e_def"),
    Dataset.getVar_setVar_ne _ _ (by decide : ("lat" : String) ≠ "e_def"),
    Dataset.getVar_setVar_ne _ _ (by decide : ("delta_r" : String) ≠ "vp"),
    Dataset.getVar_setVar_ne _ _ (by decide : ("gamma" : String) ≠ "vp"),
    Dataset.getVar_setVar_ne _ _ (by decide : ("tmean" : String) ≠ "vp"),
    Dataset.getVar_setVar_ne _ _ (by decide : ("tmax" : String) ≠ "vp"),
    Dataset.getVar_setVar_ne _ _ (by decide : ("tmin" : String) ≠ "vp"),
    Dataset.getVar_setVar_ne _ _ (by decide : ("srad" : String) ≠ "vp"),
    Dataset.getVar_setVar_ne _ _ (by decide : ("dayl" : String) ≠ "vp"),
    Dataset.getVar_setVar_ne _ _ (by decide : ("lat" : String) ≠ "vp"),
    Dataset.getVar_setVar_ne _ _ (by decide : ("elevation" : String) ≠ "vp"),
    Dataset.getVar_setVar_ne _ _ (by decide : ("delta_r" : String) ≠ "gamma"),
    Dataset.getVar_setVar_ne _ _ (by decide : ("tmean" : String) ≠ "gamma"),
    Dataset.getVar_setVar_ne _ _ (by decide : ("tmax" : String) ≠ "gamma"),
    Dataset.getVar_setVar_ne _ _ (by decide : ("tmin" : String) ≠ "gamma"),
    Dataset.getVar_setVar_ne _ _ (by decide : ("srad" : String) ≠ "gamma"),
    Dataset.getVar_setVar_ne _ _ (by decide : ("dayl" : String) ≠ "gamma"),
    Dataset.getVar_setVar_ne _ _ (by decide : ("lat" : String) ≠ "gamma"),
    Dataset.getVar_setVar_ne _ _ (by decide : ("vp" : String) ≠ "gamma"),
    Dataset.getVar_setVar_ne _ _ (by decide : ("elevation" : String) ≠ "gamma"),
    Dataset.getVar_setVar_ne _ _ (by decide : ("delta_r" : String) ≠ "elevation"),
    Dataset.getVar_setVar_ne _ _ (by decide : ("tmean" : String) ≠ "elevation"),
    Dataset.getVar_setVar_ne _ _ (by decide : ("tmax" : String) ≠ "elevation"),
    Dataset.getVar_setVar_ne _ _ (by decide : ("tmin" : String) ≠ "elevation"),
    Dataset.getVar_setVar_ne _ _ (by decide : ("srad" : String) ≠ "elevation"),
    Dataset.getVar_setVar_ne _ _ (by decide : ("dayl" : String) ≠ "elevation"),
    Dataset.getVar_setVar_ne _ _ (by decide : ("lat" : String) ≠ "elevation"),
    Dataset.getVar_setVar_ne _ _ (by decide : ("vp" : String) ≠ "elevation"),
    Dataset.getVar_setVar_ne _ _ (by decide : ("tmean" : String) ≠ "delta_r"),
    Dataset.getVar_setVar_ne _ _ (by decide : ("tmax" : String) ≠ "delta_r"),
    Dataset.getVar_setVar_ne _ _ (by decide : ("tmin" : String) ≠ "delta_r"),
    Dataset.getVar_setVar_ne _ _ (by decide : ("srad" : String) ≠ "delta_r"),
    Dataset.getVar_setVar_ne _ _ (by decide : ("dayl" : String) ≠ "delta_r"),
    Dataset.getVar_setVar_ne _ _ (by decide : ("lat" : String) ≠ "delta_r"),
    Dataset.getVar_setVar_ne _ _ (by decide : ("vp" : String) ≠ "delta_r"),
    Dataset.getVar_setVar_ne _ _ (by decide : ("tmax" : String) ≠ "tmean"),
    Dataset.getVar_setVar_ne _ _ (by decide : ("tmin" : String) ≠ "tmean"),
    Dataset.getVar_setVar_ne _ _ (by decide : ("srad" : String) ≠ "tmean"),
    Dataset.getVar_setVar_ne _ _ (by decide : ("dayl" : String) ≠ "tmean"),
    Dataset.getVar_setVar_ne _ _ (by decide : ("lat" : String) ≠ "tmean"),
    Dataset.getVar_setVar_ne _ _ (by decide : ("vp" : String) ≠ "tmean"),
    Dataset.getVar_setVar_ne _ _ hke, Dataset.getVar_setVar_ne _ _ h2,
    Dataset.getVar_setVar_ne _ _ h1,
    Dataset.time_setVar, Dataset.time_setTime, Dataset.timeNum,
    List.getElem?_map, htime, Option.map_some',
    TimeVal.toDoyNum, hmask, helevG, hlat, htmax, htmin, hvp, hsrad, hdayl,
    rad_nl_bygrid_some, oadd, osub, omul, odiv, opow, oneg,
    o2_some_some, o1_some, bycoordsCell, rad_nl_bycoords]

/-- C5 witness: the sample single-cell grid and the equivalent sample point
table produce the same PET value at the first time step. -/
theorem c5_point_grid_agree_witness :
    ∃ rg rp, (pet_bygridFull (ε := Unit) dummyP (Except.ok elevG0) ds0).2 = Except.ok rg
      ∧ (pet_bycoordsFull (ε := Unit) dummyP (Except.ok 200) ((0 : ℚ), 40) false df0).2
          = Except.ok rp
      ∧ rg.getVar "pet" 0 0 0 = some (rp.get petCol 0) :=
  c5_point_grid_agree dummyP ((0 : ℚ), 40) false 200 elevG0 df0 ds0 0 0 10
    rfl rfl (by decide) (by decide) (by decide) rfl rfl rfl rfl rfl rfl rfl rfl rfl

/-- C9 witness: concrete instantiation with a surface/clear-sky ratio of
100 (far outside [0.3, 1.0]) — the unclamped formula still applies. -/
theorem c9_rad_nl_unclamped_witness :
    rad_nl_bycoords dummyP (30 : ℚ) 10 1500 100 1
        = specRadNl dummyP 30 10 1500 (100 / 1)
      ∧ rad_nl_bygrid dummyP (some (30 : ℚ)) (some 10) (some 1500) (some 100) (some 1)
        = some (specRadNl dummyP 30 10 1500 (100 / 1)) :=
  c9_rad_nl_unclamped dummyP 30 10 1500 100 1
